import Mathlib

set_option maxRecDepth 8192

/-!
Verification of the uvd-x402-sdk escrow client (`src/uvd_x402_sdk/advanced_escrow.py`
and `src/uvd_x402_sdk/networks/evm.py`) against its natural-language specification.

The payment-commitment builder, the on-chain tuple builder, the chain registry,
the client construction logic, the facilitator response handling and the amount
defaulting idioms are shallowly embedded as executable Lean functions.  Byte
strings are `List Nat` (each element < 256); EVM addresses are hex strings as in
the Python source, interpreted as 160-bit numbers where the ABI encoding needs
their value; keccak-256 is implemented in full so the two-stage nonce hash is a
concrete computable function.
-/

namespace UvdX402

/-! ## Keccak-256 (as used by `Web3.keccak` in the source) -/

/-- The lane modulus 2^64 of Keccak-f[1600]. -/
def U64 : Nat := 2 ^ 64

/-- Rotate a 64-bit lane left by `n` (0 ≤ n < 64). -/
def rotl64 (x n : Nat) : Nat :=
  ((x <<< n) % U64) ||| (x >>> (64 - n))

/-- Bitwise complement of a 64-bit lane. -/
def not64 (x : Nat) : Nat := x ^^^ (U64 - 1)

/-- Keccak round constants (24 rounds), generated from the degree-8 LFSR of
FIPS 202: starting from register 1, each step emits the low bit and shifts,
folding in 0x71 on overflow; round `i` collects bits `7*i .. 7*i+6` at bit
positions `2^j - 1`. -/
def keccakRC : List Nat :=
  ((List.range 24).foldl (fun (p : List Nat × Nat) _ =>
    let q := (List.range 7).foldl (fun (q : Nat × Nat) j =>
      (q.1 + (q.2 % 2) * 2 ^ (2 ^ j - 1),
       if q.2 ≥ 128 then ((q.2 * 2) ^^^ 0x71) % 256 else q.2 * 2)) (0, p.2)
    (p.1 ++ [q.1], q.2)) ([], 1)).1

/-- Rho rotation step table: starting from lane (1,0), step `t` assigns offset
`(t+1)(t+2)/2 mod 64` to the current lane and moves to `(y, 2x+3y)`. -/
def rhoPairs : List (Nat × Nat) :=
  ((List.range 24).foldl (fun (p : List (Nat × Nat) × (Nat × Nat)) t =>
    (p.1 ++ [(p.2.1 + 5 * p.2.2, ((t + 1) * (t + 2) / 2) % 64)],
     (p.2.2, (2 * p.2.1 + 3 * p.2.2) % 5))) ([], (1, 0))).1

/-- Rho rotation offsets, indexed by lane index `x + 5*y` (lane 0 rotates
by 0). -/
def rhoOffsets : List Nat :=
  (List.range 25).map fun i =>
    ((rhoPairs.find? (fun p => p.1 == i)).map Prod.snd).getD 0

/-- Read lane `i` of a 25-lane state (missing entries read as 0). -/
def lane (s : List Nat) (i : Nat) : Nat := s.getD i 0

/-- Keccak θ step. -/
def theta (s : List Nat) : List Nat :=
  let c := (List.range 5).map fun x =>
    ((((lane s x ^^^ lane s (x + 5)) ^^^ lane s (x + 10)) ^^^ lane s (x + 15)) ^^^ lane s (x + 20))
  let d := (List.range 5).map fun x =>
    lane c ((x + 4) % 5) ^^^ rotl64 (lane c ((x + 1) % 5)) 1
  (List.range 25).map fun i => lane s i ^^^ lane d (i % 5)

/-- Keccak ρ and π steps: lane `(x, y)` rotated by its offset moves to `(y, 2x+3y)`. -/
def rhoPi (s : List Nat) : List Nat :=
  (List.range 25).map fun t =>
    let i := (t % 5 + 3 * (t / 5)) % 5 + 5 * (t % 5)
    rotl64 (lane s i) (lane rhoOffsets i)

/-- Keccak χ step. -/
def chi (s : List Nat) : List Nat :=
  (List.range 25).map fun t =>
    let x := t % 5
    let row := 5 * (t / 5)
    lane s t ^^^ (not64 (lane s ((x + 1) % 5 + row)) &&& lane s ((x + 2) % 5 + row))

/-- One Keccak round: θ, ρ, π, χ, then ι with round constant `rc`. -/
def keccakRound (s : List Nat) (rc : Nat) : List Nat :=
  let u := chi (rhoPi (theta s))
  (lane u 0 ^^^ rc) :: u.tail

/-- The Keccak-f[1600] permutation. -/
def keccakF (s : List Nat) : List Nat := keccakRC.foldl keccakRound s

/-- Interpret up to 8 bytes as a little-endian 64-bit lane. -/
def laneOfBytes (bs : List Nat) : Nat := bs.foldr (fun b acc => b + 256 * acc) 0

/-- Little-endian bytes of a 64-bit lane. -/
def laneBytes (x : Nat) : List Nat := (List.range 8).map fun j => (x >>> (8 * j)) % 256

/-- Keccak multi-rate padding for rate 136 (the 0x01 … 0x80 pattern). -/
def kPad (len : Nat) : List Nat :=
  let q := 136 - len % 136
  if q = 1 then [0x81] else 0x01 :: (List.replicate (q - 2) 0 ++ [0x80])

/-- XOR one 136-byte block into the state and permute. -/
def absorbBlock (s : List Nat) (block : List Nat) : List Nat :=
  let lanes := (List.range 17).map fun i => laneOfBytes ((block.drop (8 * i)).take 8)
  keccakF ((List.range 25).map fun i => lane s i ^^^ lane lanes i)

/-- Keccak-256 of a byte string (the hash Ethereum calls `keccak256`). -/
def keccak256 (msg : List Nat) : List Nat :=
  let padded := msg ++ kPad msg.length
  let s := (List.range (padded.length / 136)).foldl
    (fun st bi => absorbBlock st ((padded.drop (136 * bi)).take 136)) (List.replicate 25 0)
  ((List.range 4).map fun i => laneBytes (lane s i)).flatten

/-! ## Hex conversions -/

/-- Value of a hexadecimal digit character, `none` for non-digits. -/
def hexDigitVal (c : Char) : Option Nat :=
  if 48 ≤ c.toNat ∧ c.toNat ≤ 57 then some (c.toNat - 48)
  else if 97 ≤ c.toNat ∧ c.toNat ≤ 102 then some (c.toNat - 87)
  else if 65 ≤ c.toNat ∧ c.toNat ≤ 70 then some (c.toNat - 55)
  else none

/-- Is `c` a hexadecimal digit (the character-set check in `_build_tuple`)? -/
def isHexDigit (c : Char) : Bool := (hexDigitVal c).isSome

/-- Python `s.startswith("0x")`, computed on the character list so the kernel can
evaluate it. -/
def startsWith0x (s : String) : Bool :=
  match s.data with
  | c1 :: c2 :: _ => c1 == '0' && c2 == 'x'
  | _ => false

/-- Python `s[2:]`: the string without its first two characters. -/
def strDrop2 (s : String) : String := String.mk (s.data.drop 2)

/-- Parse a bare hex-digit string (Python `int(s, 16)` on prefix-free input);
`none` on the empty string or any non-digit, as `int` raises there. -/
def parseHexNat (s : String) : Option Nat :=
  if s.data.isEmpty then none
  else s.data.foldl (fun acc c => acc.bind fun a => (hexDigitVal c).map fun d => 16 * a + d)
    (some 0)

/-- Value of a decimal digit character, `none` for non-digits. -/
def decDigitVal (c : Char) : Option Nat :=
  if 48 ≤ c.toNat ∧ c.toNat ≤ 57 then some (c.toNat - 48) else none

/-- Parse a decimal string (Python `int(s)`); `none` where `int` raises. -/
def parseDecNat (s : String) : Option Nat :=
  if s.data.isEmpty then none
  else s.data.foldl (fun acc c => acc.bind fun a => (decDigitVal c).map fun d => 10 * a + d)
    (some 0)

/-- Decode a hex string with an even number of digits into bytes
(Python `bytes.fromhex`). -/
def bytesFromHexChars : List Char → List Nat
  | [] => []
  | [_] => []
  | a :: b :: rest =>
    ((hexDigitVal a).getD 0 * 16 + (hexDigitVal b).getD 0) :: bytesFromHexChars rest

/-- Decode a hex string into bytes. -/
def bytesFromHex (s : String) : List Nat := bytesFromHexChars s.data

/-- Lowercase hex character for a nibble. -/
def hexDigitChar (n : Nat) : Char :=
  if n < 10 then Char.ofNat (48 + n) else Char.ofNat (87 + n)

/-- Two lowercase hex characters for a byte. -/
def byteHex (b : Nat) : String :=
  String.mk [hexDigitChar (b / 16 % 16), hexDigitChar (b % 16)]

/-- Lowercase hex rendering of a byte string (how `HexBytes.hex` prints digests). -/
def bytesToHex (bs : List Nat) : String := bs.foldl (fun acc b => acc ++ byteHex b) ""

/-! ## Constants from `advanced_escrow.py` -/

/-- Constant `PAYMENT_INFO_TYPEHASH`: the fixed 32-byte type identifier. -/
def PAYMENT_INFO_TYPEHASH : List Nat :=
  bytesFromHex "ae68ac7ce30c86ece8196b61a7c486d8f0061f575037fbd34e7fe4e2820c6591"

/-- Constant `ZERO_ADDRESS`: the payer sentinel used by the payer-agnostic nonce hash. -/
def ZERO_ADDRESS : String := "0x0000000000000000000000000000000000000000"

/-! ## PaymentInfo (the dataclass of `advanced_escrow.py`) -/

/-- The `salt` field is `str` by declaration but the parsing code also handles
`int` at runtime; both runtime shapes are modelled. -/
inductive SaltValue where
  | int (n : Nat)
  | str (s : String)
deriving DecidableEq, Repr

/-- The `PaymentInfo` dataclass.  Addresses stay hex strings, as in the source;
integer fields are unbounded here and range-checked where `eth_abi.encode`
checks them. -/
structure PaymentInfo where
  operator : String
  receiver : String
  token : String
  max_amount : Nat
  pre_approval_expiry : Nat
  authorization_expiry : Nat
  refund_expiry : Nat
  min_fee_bps : Nat := 0
  max_fee_bps : Nat := 800
  fee_receiver : String := ""
  salt : SaltValue
deriving DecidableEq, Repr

/-- Method `PaymentInfo.__post_init__`: an empty (falsy) `fee_receiver` is replaced by
the operator address.  Runs on every dataclass construction. -/
def post_init (pi : PaymentInfo) : PaymentInfo :=
  if pi.fee_receiver = "" then { pi with fee_receiver := pi.operator } else pi

/-! ## Salt parsing

`_compute_nonce` and `_build_tuple` each turn the salt into an integer, with
different branch structure; `none` models a raised `ValueError`. -/

/-- Salt parsing in `_compute_nonce`:
`int(salt, 16) if salt.startswith("0x") else int(salt)`. -/
def nonceSalt : SaltValue → Option Nat
  | .int n => some n
  | .str s => if startsWith0x s then parseHexNat (strDrop2 s) else parseDecNat s

/-- Salt parsing in `_build_tuple`:
`int(s, 16)` when `0x`-prefixed, else `int(s, 16)` when every character is a
hex digit, else `int(s)`. -/
def tupleSalt : SaltValue → Option Nat
  | .int n => some n
  | .str s =>
    if startsWith0x s then parseHexNat (strDrop2 s)
    else if s.data.all isHexDigit then parseHexNat s
    else parseDecNat s

/-! ## Addresses and ABI encoding -/

/-- A string `Web3.to_checksum_address` accepts: `0x` followed by 40 hex digits. -/
def isAddress (s : String) : Bool :=
  startsWith0x s && (strDrop2 s).data.length == 40 && (strDrop2 s).data.all isHexDigit

/-- The 160-bit numeric value of an address string.  EIP-55 checksumming only
re-cases the hex display, so the value the ABI encoder consumes is exactly
this number. -/
def addrVal (s : String) : Nat := (parseHexNat (strDrop2 s)).getD 0

/-- Static ABI encoding of one value: a 32-byte big-endian word. -/
def abiWord (n : Nat) : List Nat := (List.range 32).map fun i => (n >>> (8 * (31 - i))) % 256

/-- The ordered 12-field on-chain `PaymentInfo` ABI tuple, with addresses as
their numeric values and the salt already parsed to an integer. -/
structure OnchainTuple where
  operator : Nat
  payer : Nat
  receiver : Nat
  token : Nat
  maxAmount : Nat
  preApprovalExpiry : Nat
  authorizationExpiry : Nat
  refundExpiry : Nat
  minFeeBps : Nat
  maxFeeBps : Nat
  feeReceiver : Nat
  salt : Nat
deriving DecidableEq, Repr

/-- Range side conditions `eth_abi.encode` enforces for
`(address,address,address,address,uint120,uint48,uint48,uint48,uint16,uint16,address,uint256)`. -/
def tupleInRange (t : OnchainTuple) : Bool :=
  decide (t.maxAmount < 2 ^ 120) && decide (t.preApprovalExpiry < 2 ^ 48) &&
  decide (t.authorizationExpiry < 2 ^ 48) && decide (t.refundExpiry < 2 ^ 48) &&
  decide (t.minFeeBps < 2 ^ 16) && decide (t.maxFeeBps < 2 ^ 16) && decide (t.salt < 2 ^ 256)

/-- All four address fields of a `PaymentInfo` are checksummable. -/
def addrsValid (pi : PaymentInfo) : Bool :=
  isAddress pi.operator && isAddress pi.receiver && isAddress pi.token &&
  isAddress pi.fee_receiver

/-- The `pi_tuple` of `_compute_nonce`: payer slot fixed to `ZERO_ADDRESS`
(payer-agnostic hash), salt parsed by `nonceSalt`.  `none` models the
`ValueError` raised by checksumming or salt parsing. -/
def nonce_tuple (pi : PaymentInfo) : Option OnchainTuple :=
  if addrsValid pi then
    (nonceSalt pi.salt).map fun s =>
      { operator := addrVal pi.operator, payer := addrVal ZERO_ADDRESS,
        receiver := addrVal pi.receiver, token := addrVal pi.token,
        maxAmount := pi.max_amount, preApprovalExpiry := pi.pre_approval_expiry,
        authorizationExpiry := pi.authorization_expiry, refundExpiry := pi.refund_expiry,
        minFeeBps := pi.min_fee_bps, maxFeeBps := pi.max_fee_bps,
        feeReceiver := addrVal pi.fee_receiver, salt := s }
  else none

/-- Method `_build_tuple`: the on-chain tuple for a real transaction, with the client's
actual payer address in the payer slot and the salt parsed by `tupleSalt`. -/
def build_tuple (payer : String) (pi : PaymentInfo) : Option OnchainTuple :=
  if addrsValid pi && isAddress payer then
    (tupleSalt pi.salt).map fun s =>
      { operator := addrVal pi.operator, payer := addrVal payer,
        receiver := addrVal pi.receiver, token := addrVal pi.token,
        maxAmount := pi.max_amount, preApprovalExpiry := pi.pre_approval_expiry,
        authorizationExpiry := pi.authorization_expiry, refundExpiry := pi.refund_expiry,
        minFeeBps := pi.min_fee_bps, maxFeeBps := pi.max_fee_bps,
        feeReceiver := addrVal pi.fee_receiver, salt := s }
  else none

/-- Head-only ABI encoding of the 12-field static tuple: twelve 32-byte words. -/
def abiEncodePaymentInfo (t : OnchainTuple) : List Nat :=
  abiWord t.operator ++ abiWord t.payer ++ abiWord t.receiver ++ abiWord t.token ++
  abiWord t.maxAmount ++ abiWord t.preApprovalExpiry ++ abiWord t.authorizationExpiry ++
  abiWord t.refundExpiry ++ abiWord t.minFeeBps ++ abiWord t.maxFeeBps ++
  abiWord t.feeReceiver ++ abiWord t.salt

/-- Method `_compute_nonce`: struct hash over the typehash-prefixed tuple encoding,
then the final hash over `(chain_id, escrow, struct_hash)`, rendered
`0x`-prefixed lowercase hex. -/
def compute_nonce (chain_id : Nat) (escrow : String) (pi : PaymentInfo) : Option String :=
  match nonce_tuple pi with
  | none => none
  | some t =>
    if decide (chain_id < 2 ^ 256) && tupleInRange t && isAddress escrow then
      let encoded_with_typehash := PAYMENT_INFO_TYPEHASH ++ abiEncodePaymentInfo t
      let pi_hash := keccak256 encoded_with_typehash
      let final_encoded := abiWord chain_id ++ (abiWord (addrVal escrow) ++ pi_hash)
      some ("0x" ++ bytesToHex (keccak256 final_encoded))
    else none

/-! ## The spec's independent description of the nonce (for claim C1)

These definitions transcribe §4.2 of the spec rather than the source: the
canonical 12-field tuple written as a list with a literal `0` payer sentinel,
the struct hash as keccak256 of the type identifier concatenated with the
tuple's ABI encoding, and the nonce as keccak256 of the ABI encoding of
`(chain_id as uint256, escrow address, struct_hash)`. -/

/-- The spec's canonical field tuple, §4.2 step 1. -/
def spec_canonical_tuple (pi : PaymentInfo) (salt : Nat) : List Nat :=
  [addrVal pi.operator, 0, addrVal pi.receiver, addrVal pi.token,
   pi.max_amount, pi.pre_approval_expiry, pi.authorization_expiry, pi.refund_expiry,
   pi.min_fee_bps, pi.max_fee_bps, addrVal pi.fee_receiver, salt]

/-- The spec's struct hash, §4.2 step 2. -/
def spec_struct_hash (pi : PaymentInfo) (salt : Nat) : List Nat :=
  keccak256 (PAYMENT_INFO_TYPEHASH ++ ((spec_canonical_tuple pi salt).map abiWord).flatten)

/-- The spec's nonce, §4.2 step 3, rendered `0x`-prefixed lowercase hex. -/
def spec_two_stage_nonce (chain_id : Nat) (escrow : String) (pi : PaymentInfo)
    (salt : Nat) : String :=
  "0x" ++ bytesToHex
    (keccak256 (abiWord chain_id ++ (abiWord (addrVal escrow) ++ spec_struct_hash pi salt)))

/-! ## Multi-chain escrow contract registry -/

/-- One registry entry of `ESCROW_CONTRACTS` (no deployed operator instance,
only the factory). -/
structure RegistryContracts where
  escrow : String
  operator_factory : String
  token_collector : String
  protocol_fee_config : String
  refund_request : String
  usdc : String
deriving DecidableEq, Repr

/-- A resolved client contract set (registry entry plus operator instance). -/
structure EscrowContracts where
  operator : String
  escrow : String
  operator_factory : String
  token_collector : String
  protocol_fee_config : String
  refund_request : String
  usdc : String
deriving DecidableEq, Repr

/-- Python `dict` lookup on an association list (keys are unique in the source
dict literals, so first match is the value). -/
def dictLookup {α : Type} : List (Nat × α) → Nat → Option α
  | [], _ => none
  | p :: rest, k => if p.1 = k then some p.2 else dictLookup rest k

/-- Python `dict.get(k, default)`. -/
def dictGet {α : Type} (l : List (Nat × α)) (k : Nat) (d : α) : α := (dictLookup l k).getD d

/-- Registry `ESCROW_CONTRACTS`, in the source's insertion order. -/
def ESCROW_CONTRACTS : List (Nat × RegistryContracts) :=
  [(84532,
    { escrow := "0x29025c0E9D4239d438e169570818dB9FE0A80873",
      operator_factory := "0x97d53e63A9CB97556c00BeFd325AF810c9b267B2",
      token_collector := "0x5cA789000070DF15b4663DB64a50AeF5D49c5Ee0",
      protocol_fee_config := "0x8F96C493bAC365E41f0315cf45830069EBbDCaCe",
      refund_request := "0x1C2Ab244aC8bDdDB74d43389FF34B118aF2E90F4",
      usdc := "0x036CbD53842c5426634e7929541eC2318f3dCF7e" }),
   (11155111,
    { escrow := "0x320a3c35F131E5D2Fb36af56345726B298936037",
      operator_factory := "0x32d6AC59BCe8DFB3026F10BcaDB8D00AB218f5b6",
      token_collector := "0x230fd3A171750FA45db2976121376b7F47Cba308",
      protocol_fee_config := "0xD979dBfBdA5f4b16AAF60Eaab32A44f352076838",
      refund_request := "0xc1256Bb30bd0cdDa07D8C8Cf67a59105f2EA1b98",
      usdc := "0x1c7D4B196Cb0C7B01d743Fbc6116a902379C7238" }),
   (8453,
    { escrow := "0xb9488351E48b23D798f24e8174514F28B741Eb4f",
      operator_factory := "0x3D0837fF8Ea36F417261577b9BA568400A840260",
      token_collector := "0x48ADf6E37F9b31dC2AAD0462C5862B5422C736B8",
      protocol_fee_config := "0x59314674BAbb1a24Eb2704468a9cCdD50668a1C6",
      refund_request := "0x35fb2EFEfAc3Ee9f6E52A9AAE5C9655bC08dEc00",
      usdc := "0x833589fCD6eDb6E08f4c7C32D4f71b54bdA02913" }),
   (1,
    { escrow := "0xc1256Bb30bd0cdDa07D8C8Cf67a59105f2EA1b98",
      operator_factory := "0xed02d3E5167BCc9582D851885A89b050AB816a56",
      token_collector := "0xE78648e7af7B1BaDE717FF6E410B922F92adE80f",
      protocol_fee_config := "0xb33D6502EdBbC47201cd1E53C49d703EC0a660b8",
      refund_request := "0xc9BbA6A2CF9838e7Dd8c19BC8B3BAC620B9D8178",
      usdc := "0xA0b86991c6218b36c1d19D4a2e9Eb0cE3606eB48" }),
   (137,
    { escrow := "0x32d6AC59BCe8DFB3026F10BcaDB8D00AB218f5b6",
      operator_factory := "0xb33D6502EdBbC47201cd1E53C49d703EC0a660b8",
      token_collector := "0xc1256Bb30bd0cdDa07D8C8Cf67a59105f2EA1b98",
      protocol_fee_config := "0xE78648e7af7B1BaDE717FF6E410B922F92adE80f",
      refund_request := "0xed02d3E5167BCc9582D851885A89b050AB816a56",
      usdc := "0x3c499c542cEF5E3811e1192ce70d8cC03d5c3359" }),
   (42161,
    { escrow := "0x320a3c35F131E5D2Fb36af56345726B298936037",
      operator_factory := "0x32d6AC59BCe8DFB3026F10BcaDB8D00AB218f5b6",
      token_collector := "0x230fd3A171750FA45db2976121376b7F47Cba308",
      protocol_fee_config := "0xD979dBfBdA5f4b16AAF60Eaab32A44f352076838",
      refund_request := "0xc1256Bb30bd0cdDa07D8C8Cf67a59105f2EA1b98",
      usdc := "0xaf88d065e77c8cC2239327C5EDb3A432268e5831" }),
   (42220,
    { escrow := "0x320a3c35F131E5D2Fb36af56345726B298936037",
      operator_factory := "0x32d6AC59BCe8DFB3026F10BcaDB8D00AB218f5b6",
      token_collector := "0x230fd3A171750FA45db2976121376b7F47Cba308",
      protocol_fee_config := "0xD979dBfBdA5f4b16AAF60Eaab32A44f352076838",
      refund_request := "0xc1256Bb30bd0cdDa07D8C8Cf67a59105f2EA1b98",
      usdc := "0xcebA9300f2b948710d2653dD7B07f33A8B32118C" }),
   (143,
    { escrow := "0x320a3c35F131E5D2Fb36af56345726B298936037",
      operator_factory := "0x32d6AC59BCe8DFB3026F10BcaDB8D00AB218f5b6",
      token_collector := "0x230fd3A171750FA45db2976121376b7F47Cba308",
      protocol_fee_config := "0xD979dBfBdA5f4b16AAF60Eaab32A44f352076838",
      refund_request := "0xc1256Bb30bd0cdDa07D8C8Cf67a59105f2EA1b98",
      usdc := "0x754704Bc059F8C67012fEd69BC8A327a5aafb603" }),
   (43114,
    { escrow := "0x320a3c35F131E5D2Fb36af56345726B298936037",
      operator_factory := "0x32d6AC59BCe8DFB3026F10BcaDB8D00AB218f5b6",
      token_collector := "0x230fd3A171750FA45db2976121376b7F47Cba308",
      protocol_fee_config := "0xD979dBfBdA5f4b16AAF60Eaab32A44f352076838",
      refund_request := "0xc1256Bb30bd0cdDa07D8C8Cf67a59105f2EA1b98",
      usdc := "0xB97EF9Ef8734C71904D8002F8b6Bc66Dd9c48a6E" })]

/-- Table `ESCROW_CHAIN_NAMES`, human-readable chain names for diagnostics. -/
def ESCROW_CHAIN_NAMES : List (Nat × String) :=
  [(84532, "Base Sepolia"), (11155111, "Ethereum Sepolia"), (8453, "Base Mainnet"),
   (1, "Ethereum Mainnet"), (137, "Polygon"), (42161, "Arbitrum"), (42220, "Celo"),
   (143, "Monad"), (43114, "Avalanche")]

/-- Default `BASE_MAINNET_CONTRACTS`, the legacy default set with a deployed operator
instance. -/
def BASE_MAINNET_CONTRACTS : EscrowContracts :=
  { operator := "0xa06958D93135BEd7e43893897C0d9fA931EF051C",
    escrow := "0xb9488351E48b23D798f24e8174514F28B741Eb4f",
    operator_factory := "0x3D0837fF8Ea36F417261577b9BA568400A840260",
    token_collector := "0x48ADf6E37F9b31dC2AAD0462C5862B5422C736B8",
    protocol_fee_config := "0x59314674BAbb1a24Eb2704468a9cCdD50668a1C6",
    refund_request := "0x35fb2EFEfAc3Ee9f6E52A9AAE5C9655bC08dEc00",
    usdc := "0x833589fCD6eDb6E08f4c7C32D4f71b54bdA02913" }

/-- Insert into an ascending list (helper for Python `sorted`). -/
def insertSorted (n : Nat) : List Nat → List Nat
  | [] => [n]
  | m :: rest => if n ≤ m then n :: m :: rest else m :: insertSorted n rest

/-- Python `sorted` on a list of ints (insertion sort). -/
def sortNat : List Nat → List Nat
  | [] => []
  | n :: rest => insertSorted n (sortNat rest)

/-- The `", ".join(f"{cid} ({name})" ...)` string over the sorted registry keys,
with `"unknown"` where a name is missing. -/
def supportedChainsStr : String :=
  String.intercalate ", "
    ((sortNat (ESCROW_CONTRACTS.map Prod.fst)).map fun cid =>
      toString cid ++ " (" ++ dictGet ESCROW_CHAIN_NAMES cid "unknown" ++ ")")

/-- Function `get_escrow_contracts`: registry lookup; a `ValueError` listing every
supported chain when the chain id is absent. -/
def get_escrow_contracts (chain_id : Nat) : Except String RegistryContracts :=
  match dictLookup ESCROW_CONTRACTS chain_id with
  | some c => .ok c
  | none => .error ("No escrow contracts for chain " ++ toString chain_id ++
      ". Supported chains: " ++ supportedChainsStr)

/-- Function `get_supported_escrow_chains`: sorted registry keys. -/
def get_supported_escrow_chains : List Nat := sortNat (ESCROW_CONTRACTS.map Prod.fst)

/-- Function `is_escrow_supported`: registry membership. -/
def is_escrow_supported (chain_id : Nat) : Bool :=
  (dictLookup ESCROW_CONTRACTS chain_id).isSome

/-! ## Client construction (`AdvancedEscrowClient.__init__`) -/

/-- The `ValueError` message raised when a registered chain has no operator
address (f-string of `__init__`, line broken in the source but one string). -/
def operator_required_msg (chain_id : Nat) (registry : RegistryContracts) : String :=
  "operator_address is required for chain " ++
  dictGet ESCROW_CHAIN_NAMES chain_id (toString chain_id) ++
  " (chain_id=" ++ toString chain_id ++ "). Deploy a PaymentOperator via the factory at " ++
  registry.operator_factory ++ " and pass its address here."

/-- Contract resolution in `__init__`: explicit dict wins; else registry lookup
with the legacy Base Mainnet operator default for chain 8453 and a raise for
other registered chains without an operator address; else the legacy Base
Mainnet fallback.  `Except.error` models the raised `ValueError`. -/
def client_contracts (chain_id : Nat) (contracts : Option EscrowContracts)
    (operator_address : Option String) : Except String EscrowContracts :=
  match contracts with
  | some c => .ok c
  | none =>
    match dictLookup ESCROW_CONTRACTS chain_id with
    | some registry =>
      let op := match operator_address with
        | some a => some a
        | none => if chain_id = 8453 then some BASE_MAINNET_CONTRACTS.operator else none
      match op with
      | none => .error (operator_required_msg chain_id registry)
      | some a => .ok
          { operator := a, escrow := registry.escrow,
            operator_factory := registry.operator_factory,
            token_collector := registry.token_collector,
            protocol_fee_config := registry.protocol_fee_config,
            refund_request := registry.refund_request, usdc := registry.usdc }
    | none => .ok BASE_MAINNET_CONTRACTS

/-- The client attributes `__init__` stores that later operations read. -/
structure AdvancedEscrowClientState where
  private_key : String
  facilitator_url : String
  chain_id : Nat
  gas_limit : Nat
  contracts : EscrowContracts
  payer : String
deriving DecidableEq, Repr

/-- Method `_compute_nonce` bound to the client: reads `self.chain_id` and
`self.contracts["escrow"]` and nothing else of the client state. -/
def client_compute_nonce (st : AdvancedEscrowClientState) (pi : PaymentInfo) : Option String :=
  compute_nonce st.chain_id st.contracts.escrow pi

/-! ## Task tiers and `build_payment_info` -/

/-- Enum `TaskTier`. -/
inductive TaskTier where
  | MICRO
  | STANDARD
  | PREMIUM
  | ENTERPRISE
deriving DecidableEq, Repr

/-- One `TIER_TIMINGS` entry: the `pre`/`auth`/`refund` offsets in seconds. -/
structure TierTiming where
  pre : Nat
  auth : Nat
  refund : Nat
deriving DecidableEq, Repr

/-- Table `TIER_TIMINGS`. -/
def TIER_TIMINGS : TaskTier → TierTiming
  | .MICRO => { pre := 3600, auth := 7200, refund := 86400 }
  | .STANDARD => { pre := 7200, auth := 86400, refund := 604800 }
  | .PREMIUM => { pre := 14400, auth := 172800, refund := 1209600 }
  | .ENTERPRISE => { pre := 86400, auth := 604800, refund := 2592000 }

/-- Method `build_payment_info`.  Here `now` stands for `int(time.time())` and
`generated_salt` for the freshly drawn `"0x" + secrets.token_hex(32)`; the
dataclass construction runs `__post_init__`. -/
def build_payment_info (st : AdvancedEscrowClientState) (receiver : String) (amount : Nat)
    (now : Nat) (tier : TaskTier) (salt : Option String) (generated_salt : String)
    (min_fee_bps : Nat) (max_fee_bps : Nat) : PaymentInfo :=
  let t := TIER_TIMINGS tier
  post_init
    { operator := st.contracts.operator, receiver := receiver, token := st.contracts.usdc,
      max_amount := amount,
      pre_approval_expiry := now + t.pre,
      authorization_expiry := now + t.auth,
      refund_expiry := now + t.refund,
      min_fee_bps := min_fee_bps, max_fee_bps := max_fee_bps,
      fee_receiver := st.contracts.operator,
      salt := .str (match salt with
        | some s => if s = "" then generated_salt else s
        | none => generated_salt) }

/-! ## `authorize` response handling -/

/-- Dataclass `AuthorizationResult`. -/
structure AuthorizationResult where
  success : Bool
  transaction_hash : Option String := none
  payment_info : Option PaymentInfo := none
  salt : Option SaltValue := none
  error : Option String := none
deriving DecidableEq, Repr

/-- The JSON body of a facilitator `/settle` response, as the fields `authorize`
reads (`success`, `transaction`, `errorReason`); a missing key reads as `none`,
matching `dict.get`. -/
structure SettleResponse where
  success : Option Bool := none
  transaction : Option String := none
  errorReason : Option String := none
deriving DecidableEq, Repr

/-- One facilitator round trip: either a parsed response body or an exception
from the transport (`httpx.post` / `.json()`), whose text Python's `str(e)`
yields. -/
inductive FacilitatorOutcome where
  | response (r : SettleResponse)
  | transportError (message : String)
deriving DecidableEq, Repr

/-- The `try/except` tail of `authorize` (lines 732-750): truthy `success`
yields a success result carrying `result.get("transaction")`, the payment info
and its salt; a falsy or missing `success` yields a failure carrying
`result.get("errorReason")`; an exception yields a failure carrying its text.
`result.get("success")` is truthy exactly when the field holds JSON `true`. -/
def authorize_outcome (pi : PaymentInfo) (out : FacilitatorOutcome) : AuthorizationResult :=
  match out with
  | .response r =>
    if r.success = some true then
      { success := true, transaction_hash := r.transaction,
        payment_info := some pi, salt := some pi.salt }
    else
      { success := false, error := r.errorReason }
  | .transportError e => { success := false, error := some e }

/-! ## Amount defaulting (claim C10) -/

/-- Python's `amount or default` on an optional int: `None` and `0` are both
falsy, so either becomes the default. -/
def pyOrDefault (amount : Option Nat) (d : Nat) : Nat :=
  match amount with
  | none => d
  | some a => if a = 0 then d else a

/-- Method `release`: `amt = amount or payment_info.max_amount`. -/
def release_amount (pi : PaymentInfo) (amount : Option Nat) : Nat :=
  pyOrDefault amount pi.max_amount

/-- Method `refund_in_escrow`: `amt = amount or payment_info.max_amount`. -/
def refund_in_escrow_amount (pi : PaymentInfo) (amount : Option Nat) : Nat :=
  pyOrDefault amount pi.max_amount

/-- Method `charge`: `amt = amount or payment_info.max_amount`. -/
def charge_amount (pi : PaymentInfo) (amount : Option Nat) : Nat :=
  pyOrDefault amount pi.max_amount

/-- Method `refund_post_escrow`: `amt = amount or payment_info.max_amount`. -/
def refund_post_escrow_amount (pi : PaymentInfo) (amount : Option Nat) : Nat :=
  pyOrDefault amount pi.max_amount

/-- Method `_settle_via_facilitator`:
`amt = amount if amount is not None else payment_info.max_amount`. -/
def settle_via_facilitator_amount (pi : PaymentInfo) (amount : Option Nat) : Nat :=
  match amount with
  | some a => a
  | none => pi.max_amount

/-- Method `release_via_facilitator` forwards `amount` to `_settle_via_facilitator`. -/
def release_via_facilitator_amount (pi : PaymentInfo) (amount : Option Nat) : Nat :=
  settle_via_facilitator_amount pi amount

/-- Method `refund_via_facilitator` forwards `amount` to `_settle_via_facilitator`. -/
def refund_via_facilitator_amount (pi : PaymentInfo) (amount : Option Nat) : Nat :=
  settle_via_facilitator_amount pi amount

/-! ## EIP-712 domain of the authorization signer (claim C3) -/

/-- An EIP-712 signing domain as `_sign_erc3009` assembles it. -/
structure EIP712Domain where
  name : String
  version : String
  chainId : Nat
  verifyingContract : String
deriving DecidableEq, Repr

/-- The domain dict of `_sign_erc3009` (lines 552-557): the name is the literal
`"USD Coin"` whatever the client's chain is. -/
def sign_erc3009_domain (st : AdvancedEscrowClientState) : EIP712Domain :=
  { name := "USD Coin", version := "2", chainId := st.chain_id,
    verifyingContract := st.contracts.usdc }

/-- ASCII lowercasing of one character (Python `str.lower` on the ASCII range,
which covers every registered network name). -/
def lowerChar (c : Char) : Char :=
  if 65 ≤ c.toNat ∧ c.toNat ≤ 90 then Char.ofNat (c.toNat + 32) else c

/-- Python `str.lower`, computed on the character list. -/
def pyLower (s : String) : String := String.mk (s.data.map lowerChar)

/-- Function `get_usdc_domain_name` from `networks/evm.py`: the per-network EIP-712
domain name for USDC. -/
def get_usdc_domain_name (network_name : String) : String :=
  if pyLower network_name ∈ ["celo", "hyperevm", "unichain", "monad"] then "USDC"
  else "USD Coin"

/-- Modelled from the spec: the `NetworkConfig` dataclass is declared in
`networks/base.py`, which is not among the provided sources; only the fields
the claims touch are kept.  The field values below are verbatim from
`networks/evm.py`. -/
structure NetworkConfig where
  name : String
  display_name : String
  chain_id : Nat
  usdc_address : String
  usdc_decimals : Nat
  usdc_domain_name : String
  usdc_domain_version : String
  enabled : Bool
deriving DecidableEq, Repr

/-- The `CELO` network configuration from `networks/evm.py`, whose EIP-712
domain name is `"USDC"`, not `"USD Coin"`. -/
def CELO : NetworkConfig :=
  { name := "celo", display_name := "Celo", chain_id := 42220,
    usdc_address := "0xcebA9300f2b948710d2653dD7B07f33A8B32118C",
    usdc_decimals := 6, usdc_domain_name := "USDC", usdc_domain_version := "2",
    enabled := true }

/-! ## Concrete inputs used by the theorems below -/

/-- The fixed golden escrow address (the Base Mainnet escrow contract). -/
def GOLDEN_ESCROW : String := "0xb9488351E48b23D798f24e8174514F28B741Eb4f"

/-- A fixed instant standing for `int(time.time())` in the golden scenario. -/
def GOLDEN_NOW : Nat := 1700000000

/-- The golden PaymentInfo of spec §8: operator `0xAAA...`, receiver `0xBBB...`,
token `0xCCC...`, `max_amount` 5000000, expiries at `now`+3600/+86400/+604800,
fee bps 0/800, `fee_receiver` = operator, salt `0x01` repeated to 32 bytes. -/
def goldenPaymentInfo (now : Nat) : PaymentInfo :=
  { operator := "0xAAAAAAAAAAAAAAAAAAAAAAAAAAAAAAAAAAAAAAAA",
    receiver := "0xBBBBBBBBBBBBBBBBBBBBBBBBBBBBBBBBBBBBBBBB",
    token := "0xCCCCCCCCCCCCCCCCCCCCCCCCCCCCCCCCCCCCCCCC",
    max_amount := 5000000,
    pre_approval_expiry := now + 3600,
    authorization_expiry := now + 86400,
    refund_expiry := now + 604800,
    min_fee_bps := 0, max_fee_bps := 800,
    fee_receiver := "0xAAAAAAAAAAAAAAAAAAAAAAAAAAAAAAAAAAAAAAAA",
    salt := .str "0x0101010101010101010101010101010101010101010101010101010101010101" }

/-- A PaymentInfo whose salt is the bare string `"10"` — no `0x` prefix, all
characters both decimal and hexadecimal digits. -/
def saltTenInfo : PaymentInfo :=
  { operator := "0xAAAAAAAAAAAAAAAAAAAAAAAAAAAAAAAAAAAAAAAA",
    receiver := "0xBBBBBBBBBBBBBBBBBBBBBBBBBBBBBBBBBBBBBBBB",
    token := "0xCCCCCCCCCCCCCCCCCCCCCCCCCCCCCCCCCCCCCCCC",
    max_amount := 5000000,
    pre_approval_expiry := 1700003600,
    authorization_expiry := 1700086400,
    refund_expiry := 1700604800,
    min_fee_bps := 0, max_fee_bps := 800,
    fee_receiver := "0xAAAAAAAAAAAAAAAAAAAAAAAAAAAAAAAAAAAAAAAA",
    salt := .str "10" }

/-- A client state for payer `0xDDD...DD`. -/
def payerAState : AdvancedEscrowClientState :=
  { private_key := "0x01",
    facilitator_url := "https://facilitator.ultravioletadao.xyz",
    chain_id := 8453, gas_limit := 300000,
    contracts := BASE_MAINNET_CONTRACTS,
    payer := "0xDDDDDDDDDDDDDDDDDDDDDDDDDDDDDDDDDDDDDDDD" }

/-- The same client configuration held by a different payer with a different
signing key. -/
def payerBState : AdvancedEscrowClientState :=
  { payerAState with
    private_key := "0x02",
    payer := "0xEEEEEEEEEEEEEEEEEEEEEEEEEEEEEEEEEEEEEEEE" }

/-- The spec §8 failed-settlement response body. -/
def insufficientBalanceResponse : SettleResponse :=
  { success := some false, errorReason := some "insufficient_balance" }

/-! ## Validation of the keccak-256 embedding -/

/-- The published keccak-256 test vector for `"abc"`. -/
theorem keccak256_abc_vector :
    bytesToHex (keccak256 [0x61, 0x62, 0x63]) =
      "4e03657aea45a94fc7d47ba826c8d667c0d1e6e33a64a036ec44f58fa12d6c45" := by
  decide

/-- The published keccak-256 test vector for the empty string (Ethereum's
well-known empty hash). -/
theorem keccak256_empty_vector :
    bytesToHex (keccak256 []) =
      "c5d2460186f7233c927e7db2dcc703c0e500b653ca82273b7bfad8045d85a470" := by
  decide

/-! ## Helper lemmas -/

/-- The zero-address sentinel has numeric value 0. -/
theorem addrVal_zero : addrVal ZERO_ADDRESS = 0 := by decide

/-- A dict lookup succeeds exactly on the keys of the association list. -/
theorem dictLookup_isSome_iff {α : Type} (l : List (Nat × α)) (k : Nat) :
    (dictLookup l k).isSome = true ↔ k ∈ l.map Prod.fst := by
  induction l with
  | nil => simp [dictLookup]
  | cons p rest ih =>
    by_cases h : p.1 = k
    · simp [dictLookup, h]
    · simp only [dictLookup, if_neg h, List.map_cons, List.mem_cons, ih]
      constructor
      · intro hm; exact Or.inr hm
      · intro hm
        rcases hm with hm | hm
        · exact absurd hm.symm h
        · exact hm

/-- Membership through `insertSorted`. -/
theorem mem_insertSorted (m n : Nat) (l : List Nat) :
    m ∈ insertSorted n l ↔ m = n ∨ m ∈ l := by
  induction l with
  | nil => simp [insertSorted]
  | cons a rest ih =>
    by_cases h : n ≤ a
    · simp [insertSorted, h]
    · simp only [insertSorted, if_neg h, List.mem_cons, ih]
      tauto

/-- Sorting permutes its input, so membership is preserved. -/
theorem mem_sortNat (m : Nat) (l : List Nat) : m ∈ sortNat l ↔ m ∈ l := by
  induction l with
  | nil => simp [sortNat]
  | cons a rest ih => simp [sortNat, mem_insertSorted, ih]

/-- Method `__post_init__` never touches the three expiry fields. -/
theorem post_init_expiries (pi : PaymentInfo) :
    (post_init pi).pre_approval_expiry = pi.pre_approval_expiry ∧
    (post_init pi).authorization_expiry = pi.authorization_expiry ∧
    (post_init pi).refund_expiry = pi.refund_expiry := by
  unfold post_init
  by_cases h : pi.fee_receiver = "" <;> simp [h]

/-! ## Claim C8 -/

/-- Claim C8: on construction, `fee_receiver` becomes `operator` exactly when it
was left empty (unset), stays exactly the supplied value otherwise, and
`__post_init__` modifies no other field. -/
theorem C8_fee_receiver_defaulting (pi : PaymentInfo) :
    (post_init pi).fee_receiver =
      (if pi.fee_receiver = "" then pi.operator else pi.fee_receiver) ∧
    (post_init pi).operator = pi.operator ∧
    (post_init pi).receiver = pi.receiver ∧
    (post_init pi).token = pi.token ∧
    (post_init pi).max_amount = pi.max_amount ∧
    (post_init pi).pre_approval_expiry = pi.pre_approval_expiry ∧
    (post_init pi).authorization_expiry = pi.authorization_expiry ∧
    (post_init pi).refund_expiry = pi.refund_expiry ∧
    (post_init pi).min_fee_bps = pi.min_fee_bps ∧
    (post_init pi).max_fee_bps = pi.max_fee_bps ∧
    (post_init pi).salt = pi.salt := by
  unfold post_init
  by_cases h : pi.fee_receiver = "" <;> simp [h]

/-! ## Claim C9 -/

/-- Claim C9: `build_payment_info` at a fixed `now` places the three expiries at
the fixed per-tier offsets: 3600/7200/86400 for MICRO, 7200/86400/604800 for
STANDARD, 14400/172800/1209600 for PREMIUM, 86400/604800/2592000 for
ENTERPRISE. -/
theorem C9_tier_timings (st : AdvancedEscrowClientState) (receiver : String)
    (amount now : Nat) (salt : Option String) (g : String) (mfb xfb : Nat) :
    (build_payment_info st receiver amount now .MICRO salt g mfb xfb).pre_approval_expiry - now = 3600 ∧
    (build_payment_info st receiver amount now .MICRO salt g mfb xfb).authorization_expiry - now = 7200 ∧
    (build_payment_info st receiver amount now .MICRO salt g mfb xfb).refund_expiry - now = 86400 ∧
    (build_payment_info st receiver amount now .STANDARD salt g mfb xfb).pre_approval_expiry - now = 7200 ∧
    (build_payment_info st receiver amount now .STANDARD salt g mfb xfb).authorization_expiry - now = 86400 ∧
    (build_payment_info st receiver amount now .STANDARD salt g mfb xfb).refund_expiry - now = 604800 ∧
    (build_payment_info st receiver amount now .PREMIUM salt g mfb xfb).pre_approval_expiry - now = 14400 ∧
    (build_payment_info st receiver amount now .PREMIUM salt g mfb xfb).authorization_expiry - now = 172800 ∧
    (build_payment_info st receiver amount now .PREMIUM salt g mfb xfb).refund_expiry - now = 1209600 ∧
    (build_payment_info st receiver amount now .ENTERPRISE salt g mfb xfb).pre_approval_expiry - now = 86400 ∧
    (build_payment_info st receiver amount now .ENTERPRISE salt g mfb xfb).authorization_expiry - now = 604800 ∧
    (build_payment_info st receiver amount now .ENTERPRISE salt g mfb xfb).refund_expiry - now = 2592000 := by
  unfold build_payment_info TIER_TIMINGS post_init
  by_cases h : st.contracts.operator = "" <;> simp [h]

/-! ## Claim C10 -/

/-- Claim C10: amount defaulting is not uniform.  The four direct on-chain
operations use Python truthiness (`amount or max_amount`), so an explicit 0 is
replaced by `max_amount`; the facilitator-proxied operations use
`amount if amount is not None else max_amount`, so an explicit 0 is forwarded
unchanged; an omitted amount resolves to `max_amount` everywhere. -/
theorem C10_amount_defaulting (pi : PaymentInfo) :
    release_amount pi none = pi.max_amount ∧
    refund_in_escrow_amount pi none = pi.max_amount ∧
    charge_amount pi none = pi.max_amount ∧
    refund_post_escrow_amount pi none = pi.max_amount ∧
    release_via_facilitator_amount pi none = pi.max_amount ∧
    refund_via_facilitator_amount pi none = pi.max_amount ∧
    release_amount pi (some 0) = pi.max_amount ∧
    refund_in_escrow_amount pi (some 0) = pi.max_amount ∧
    charge_amount pi (some 0) = pi.max_amount ∧
    refund_post_escrow_amount pi (some 0) = pi.max_amount ∧
    release_via_facilitator_amount pi (some 0) = 0 ∧
    refund_via_facilitator_amount pi (some 0) = 0 := by
  simp [release_amount, refund_in_escrow_amount, charge_amount,
    refund_post_escrow_amount, release_via_facilitator_amount,
    refund_via_facilitator_amount, settle_via_facilitator_amount, pyOrDefault]

/-! ## Claim C3 -/

/-- Claim C3 (code bug): the authorization signer does NOT parametrize the
EIP-712 domain name per network.  `_sign_erc3009` hardcodes `"USD Coin"` for
every client state, while the repository's own networks module
(`get_usdc_domain_name` and the `CELO` config) records `"USDC"` as the correct
name on Celo, HyperEVM, Unichain and Monad.  The version, chain id and
verifying-contract parts of the claim do hold. -/
theorem C3_domain_name_hardcoded :
    (∀ st : AdvancedEscrowClientState,
      (sign_erc3009_domain st).name = "USD Coin" ∧
      (sign_erc3009_domain st).version = "2" ∧
      (sign_erc3009_domain st).chainId = st.chain_id ∧
      (sign_erc3009_domain st).verifyingContract = st.contracts.usdc) ∧
    get_usdc_domain_name "celo" = "USDC" ∧
    get_usdc_domain_name "hyperevm" = "USDC" ∧
    get_usdc_domain_name "unichain" = "USDC" ∧
    get_usdc_domain_name "monad" = "USDC" ∧
    get_usdc_domain_name "base" = "USD Coin" ∧
    CELO.usdc_domain_name = "USDC" ∧
    "USD Coin" ≠ "USDC" := by
  refine ⟨fun st => ⟨rfl, rfl, rfl, rfl⟩, ?_, ?_, ?_, ?_, ?_, rfl, ?_⟩ <;> decide

/-! ## Claim C2 -/

/-- Claim C2 (code bug): for the salt `"10"` (a bare string of digits) the
nonce tuple of `_compute_nonce` parses the salt as decimal (10) while the
on-chain tuple of `_build_tuple` parses the very same salt as hexadecimal (16),
so the two tuples differ in the salt field as well as the payer field —
contradicting the claim that they differ in exactly the payer slot. -/
theorem C2_salt_parse_divergence :
    (nonce_tuple saltTenInfo).map OnchainTuple.salt = some 10 ∧
    (build_tuple "0xDDDDDDDDDDDDDDDDDDDDDDDDDDDDDDDDDDDDDDDD" saltTenInfo).map
      OnchainTuple.salt = some 16 ∧
    (nonce_tuple saltTenInfo).map OnchainTuple.payer = some 0 ∧
    (build_tuple "0xDDDDDDDDDDDDDDDDDDDDDDDDDDDDDDDDDDDDDDDD" saltTenInfo).map
      OnchainTuple.payer = some 0xDDDDDDDDDDDDDDDDDDDDDDDDDDDDDDDDDDDDDDDD ∧
    (nonce_tuple saltTenInfo).map OnchainTuple.maxAmount =
      (build_tuple "0xDDDDDDDDDDDDDDDDDDDDDDDDDDDDDDDDDDDDDDDD" saltTenInfo).map
        OnchainTuple.maxAmount := by
  refine ⟨?_, ?_, ?_, ?_, ?_⟩ <;> decide

/-! ## Claim C4 -/

/-- Claim C4 counterexample: a facilitator response reporting `success: true`
but carrying no transaction identifier still yields a result with
`success == True` (and `transaction_hash == None`), so success does not require
a transaction identifier as the claim states. -/
theorem C4_success_without_transaction :
    (authorize_outcome saltTenInfo (.response { success := some true })).success = true ∧
    (authorize_outcome saltTenInfo
      (.response { success := some true })).transaction_hash = none := by
  exact ⟨rfl, rfl⟩

/-- Claim C4 (amended): `authorize` returns a success result iff the response
reports `success: true` — the transaction identifier is copied from the
response when present but its presence is not required; any other response
yields `success == False` carrying the response's `errorReason`; a transport
failure yields `success == False` carrying the transport error text; and the
handler is a total function (no exception escapes for these modes). -/
theorem C4_authorize_response_handling (pi : PaymentInfo) (out : FacilitatorOutcome) :
    ((authorize_outcome pi out).success = true ↔
      ∃ r : SettleResponse, out = .response r ∧ r.success = some true) ∧
    (∀ r : SettleResponse, out = .response r → r.success = some true →
      authorize_outcome pi out =
        { success := true, transaction_hash := r.transaction,
          payment_info := some pi, salt := some pi.salt }) ∧
    (∀ r : SettleResponse, out = .response r → r.success ≠ some true →
      authorize_outcome pi out = { success := false, error := r.errorReason }) ∧
    (∀ e : String, out = .transportError e →
      authorize_outcome pi out = { success := false, error := some e }) := by
  cases out with
  | response r =>
    by_cases h : r.success = some true
    · refine ⟨?_, ?_, ?_, ?_⟩
      · simp only [authorize_outcome, if_pos h]
        exact ⟨fun _ => ⟨r, rfl, h⟩, fun _ => trivial⟩
      · intro r' hr' _
        cases hr'
        simp only [authorize_outcome, if_pos h]
      · intro r' hr' hne
        cases hr'
        exact absurd h hne
      · intro e he
        exact absurd he (by simp)
    · refine ⟨?_, ?_, ?_, ?_⟩
      · simp only [authorize_outcome, if_neg h]
        constructor
        · intro hfalse; exact absurd hfalse (by simp)
        · rintro ⟨r', hr', hsucc⟩
          cases hr'
          exact absurd hsucc h
      · intro r' hr' hsucc
        cases hr'
        exact absurd hsucc h
      · intro r' hr' _
        cases hr'
        simp only [authorize_outcome, if_neg h]
      · intro e he
        exact absurd he (by simp)
  | transportError e =>
    refine ⟨?_, ?_, ?_, ?_⟩
    · simp [authorize_outcome]
    · intro r' hr' _
      exact absurd hr' (by simp)
    · intro r' hr' _
      exact absurd hr' (by simp)
    · intro e' he'
      cases he'
      simp [authorize_outcome]

/-- Claim C4 witness: the spec §8 example — the failed response
`{success: false, errorReason: "insufficient_balance"}` surfaces as a failed
result with `error == "insufficient_balance"`. -/
theorem C4_authorize_response_handling_witness :
    authorize_outcome saltTenInfo (.response insufficientBalanceResponse) =
      { success := false, error := some "insufficient_balance" } := by
  exact (C4_authorize_response_handling saltTenInfo
    (.response insufficientBalanceResponse)).2.2.1 insufficientBalanceResponse rfl
    (by decide)

/-! ## Claim C5 -/

/-- Claim C5 counterexample: chain id 999999 is not in the registry, yet
constructing a client for it without an explicit contracts dict does not
raise — `__init__` silently falls back to the legacy Base Mainnet contract
set, contradicting "it raises when the chain id is not in the registry". -/
theorem C5_unregistered_chain_no_raise :
    is_escrow_supported 999999 = false ∧
    client_contracts 999999 none none = .ok BASE_MAINNET_CONTRACTS := by
  exact ⟨by decide, by rfl⟩

/-- Claim C5 (amended): without an explicit contracts dict, construction
resolves the registry set for a registered chain — defaulting the operator to
the legacy Base Mainnet instance when the chain is 8453 and raising when any
other registered chain lacks an operator address — while a chain id absent
from the registry does not raise but silently falls back to the legacy Base
Mainnet contract set. -/
theorem C5_construction_contract_resolution (chain_id : Nat)
    (operator_address : Option String) :
    (dictLookup ESCROW_CONTRACTS chain_id = none →
      client_contracts chain_id none operator_address = .ok BASE_MAINNET_CONTRACTS) ∧
    (∀ r : RegistryContracts, dictLookup ESCROW_CONTRACTS chain_id = some r →
      operator_address = none → chain_id ≠ 8453 →
      client_contracts chain_id none operator_address =
        .error (operator_required_msg chain_id r)) ∧
    (∀ r : RegistryContracts, ∀ a : String,
      dictLookup ESCROW_CONTRACTS chain_id = some r → operator_address = some a →
      client_contracts chain_id none operator_address =
        .ok { operator := a, escrow := r.escrow,
              operator_factory := r.operator_factory,
              token_collector := r.token_collector,
              protocol_fee_config := r.protocol_fee_config,
              refund_request := r.refund_request, usdc := r.usdc }) ∧
    (∀ r : RegistryContracts, dictLookup ESCROW_CONTRACTS chain_id = some r →
      operator_address = none → chain_id = 8453 →
      client_contracts chain_id none operator_address =
        .ok { operator := BASE_MAINNET_CONTRACTS.operator, escrow := r.escrow,
              operator_factory := r.operator_factory,
              token_collector := r.token_collector,
              protocol_fee_config := r.protocol_fee_config,
              refund_request := r.refund_request, usdc := r.usdc }) ∧
    (∀ c : EscrowContracts,
      client_contracts chain_id (some c) operator_address = .ok c) := by
  refine ⟨?_, ?_, ?_, ?_, ?_⟩
  · intro hl
    unfold client_contracts
    rw [hl]
  · intro r hl hop hne
    unfold client_contracts
    rw [hl, hop]
    simp [hne]
  · intro r a hl hop
    unfold client_contracts
    rw [hl, hop]
  · intro r hl hop h8453
    unfold client_contracts
    rw [hl, hop]
    simp [h8453]
  · intro c
    unfold client_contracts
    rfl

/-- Claim C5 witness: the registered chain Polygon (137) with no operator
address raises the documented `ValueError`. -/
theorem C5_construction_contract_resolution_witness :
    client_contracts 137 none none =
      .error ("operator_address is required for chain Polygon (chain_id=137). Deploy a PaymentOperator via the factory at 0xb33D6502EdBbC47201cd1E53C49d703EC0a660b8 and pass its address here.") := by
  have h := (C5_construction_contract_resolution 137 none).2.1
    { escrow := "0x32d6AC59BCe8DFB3026F10BcaDB8D00AB218f5b6",
      operator_factory := "0xb33D6502EdBbC47201cd1E53C49d703EC0a660b8",
      token_collector := "0xc1256Bb30bd0cdDa07D8C8Cf67a59105f2EA1b98",
      protocol_fee_config := "0xE78648e7af7B1BaDE717FF6E410B922F92adE80f",
      refund_request := "0xed02d3E5167BCc9582D851885A89b050AB816a56",
      usdc := "0x3c499c542cEF5E3811e1192ce70d8cC03d5c3359" }
    (by decide) rfl (by decide)
  rw [h]
  exact congrArg Except.error (by decide)

/-! ## Claim C6 -/

/-- Claim C6: the nonce is a pure, deterministic function of the PaymentInfo
field tuple plus the chain id and escrow contract address: two client states
agreeing on chain id and escrow address — whatever their payer identity or
signing key — compute the identical nonce for every PaymentInfo. -/
theorem C6_nonce_payer_independent (s1 s2 : AdvancedEscrowClientState)
    (pi : PaymentInfo) (hchain : s1.chain_id = s2.chain_id)
    (hescrow : s1.contracts.escrow = s2.contracts.escrow) :
    client_compute_nonce s1 pi = client_compute_nonce s2 pi := by
  unfold client_compute_nonce
  rw [hchain, hescrow]

/-- Claim C6 witness: two clients over the same chain and escrow, held by
different payers with different signing keys, compute the same nonce for the
golden PaymentInfo. -/
theorem C6_nonce_payer_independent_witness :
    payerAState.payer ≠ payerBState.payer ∧
    payerAState.private_key ≠ payerBState.private_key ∧
    client_compute_nonce payerAState (goldenPaymentInfo GOLDEN_NOW) =
      client_compute_nonce payerBState (goldenPaymentInfo GOLDEN_NOW) := by
  exact ⟨by decide, by decide,
    C6_nonce_payer_independent payerAState payerBState (goldenPaymentInfo GOLDEN_NOW)
      rfl rfl⟩

/-! ## Claim C7 -/

/-- Claim C7: the registry resolver raises a typed error for an unknown chain
id whose message enumerates all supported chain ids with their human names,
returns a contract set for every registered id, and `supported_chains()` is
the ascending list of registered ids consistent with `is_supported`. -/
theorem C7_registry_resolver (cid : Nat) :
    (is_escrow_supported cid = false →
      get_escrow_contracts cid =
        .error ("No escrow contracts for chain " ++ toString cid ++
          ". Supported chains: " ++
          "1 (Ethereum Mainnet), 137 (Polygon), 143 (Monad), 8453 (Base Mainnet), 42161 (Arbitrum), 42220 (Celo), 43114 (Avalanche), 84532 (Base Sepolia), 11155111 (Ethereum Sepolia)")) ∧
    (is_escrow_supported cid = true →
      ∃ c : RegistryContracts, get_escrow_contracts cid = .ok c) ∧
    get_supported_escrow_chains =
      [1, 137, 143, 8453, 42161, 42220, 43114, 84532, 11155111] ∧
    List.Pairwise (fun a b => a ≤ b) get_supported_escrow_chains ∧
    (is_escrow_supported cid = true ↔ cid ∈ get_supported_escrow_chains) := by
  refine ⟨?_, ?_, ?_, ?_, ?_⟩
  · intro h
    cases hl : dictLookup ESCROW_CONTRACTS cid with
    | none =>
      unfold get_escrow_contracts
      rw [hl]
      rw [show supportedChainsStr = "1 (Ethereum Mainnet), 137 (Polygon), 143 (Monad), 8453 (Base Mainnet), 42161 (Arbitrum), 42220 (Celo), 43114 (Avalanche), 84532 (Base Sepolia), 11155111 (Ethereum Sepolia)" from by decide]
    | some c =>
      unfold is_escrow_supported at h
      rw [hl] at h
      simp at h
  · intro h
    cases hl : dictLookup ESCROW_CONTRACTS cid with
    | none =>
      unfold is_escrow_supported at h
      rw [hl] at h
      simp at h
    | some c =>
      refine ⟨c, ?_⟩
      unfold get_escrow_contracts
      rw [hl]
  · decide
  · decide
  · unfold is_escrow_supported get_supported_escrow_chains
    rw [dictLookup_isSome_iff, mem_sortNat]

/-- Claim C7 witness: chain id 2 is unsupported and its lookup error
enumerates all nine supported chains with their names. -/
theorem C7_registry_resolver_witness :
    is_escrow_supported 2 = false ∧
    get_escrow_contracts 2 =
      .error "No escrow contracts for chain 2. Supported chains: 1 (Ethereum Mainnet), 137 (Polygon), 143 (Monad), 8453 (Base Mainnet), 42161 (Arbitrum), 42220 (Celo), 43114 (Avalanche), 84532 (Base Sepolia), 11155111 (Ethereum Sepolia)" := by
  refine ⟨by decide, ?_⟩
  have h := (C7_registry_resolver 2).1 (by decide)
  rw [h]
  exact congrArg Except.error (by decide)

/-! ## Claim C1 -/

/-- Claim C1: for every PaymentInfo whose addresses checksum, whose salt
parses to `s` and whose integers fit their declared widths, `_compute_nonce`
returns exactly the spec's two-stage hash: keccak256 of the 32-byte type
identifier concatenated with the ABI encoding of the canonical 12-field tuple
(payer slot fixed to the zero sentinel), then keccak256 of the ABI encoding of
`(chain_id as uint256, escrow address, struct_hash)`. -/
theorem C1_compute_nonce_two_stage (chain_id : Nat) (escrow : String)
    (pi : PaymentInfo) (s : Nat) (hA : addrsValid pi = true)
    (hs : nonceSalt pi.salt = some s) (hc : chain_id < 2 ^ 256)
    (hm : pi.max_amount < 2 ^ 120) (hp : pi.pre_approval_expiry < 2 ^ 48)
    (ha : pi.authorization_expiry < 2 ^ 48) (hrf : pi.refund_expiry < 2 ^ 48)
    (hmin : pi.min_fee_bps < 2 ^ 16) (hmax : pi.max_fee_bps < 2 ^ 16)
    (hsalt : s < 2 ^ 256) (he : isAddress escrow = true) :
    compute_nonce chain_id escrow pi =
      some (spec_two_stage_nonce chain_id escrow pi s) := by
  unfold compute_nonce nonce_tuple
  rw [hA, hs]
  simp only [if_true, Option.map_some']
  rw [if_pos]
  · unfold spec_two_stage_nonce spec_struct_hash spec_canonical_tuple
      abiEncodePaymentInfo
    simp [addrVal_zero]
  · simp only [tupleInRange, Bool.and_eq_true, decide_eq_true_eq]
    tauto

/-- Claim C1 witness: the golden scenario of spec §8 — operator `0xAAA...`,
receiver `0xBBB...`, token `0xCCC...`, amount 5000000, expiries at
`now`+3600/+86400/+604800, fee bps 0/800, `fee_receiver` = operator, salt
`0x01` repeated to 32 bytes, chain id 8453, the fixed escrow address — where
the builder's nonce equals the independently recomputed two-stage hash. -/
theorem C1_compute_nonce_two_stage_witness :
    addrsValid (goldenPaymentInfo GOLDEN_NOW) = true ∧
    nonceSalt (goldenPaymentInfo GOLDEN_NOW).salt =
      some 0x0101010101010101010101010101010101010101010101010101010101010101 ∧
    compute_nonce 8453 GOLDEN_ESCROW (goldenPaymentInfo GOLDEN_NOW) =
      some (spec_two_stage_nonce 8453 GOLDEN_ESCROW (goldenPaymentInfo GOLDEN_NOW)
        0x0101010101010101010101010101010101010101010101010101010101010101) := by
  refine ⟨by decide, by decide, ?_⟩
  exact C1_compute_nonce_two_stage 8453 GOLDEN_ESCROW (goldenPaymentInfo GOLDEN_NOW)
    0x0101010101010101010101010101010101010101010101010101010101010101
    (by decide) (by decide) (by decide) (by decide) (by decide) (by decide)
    (by decide) (by decide) (by decide) (by decide) (by decide)

end UvdX402
